import Mathlib

/-!
Shallow embedding of the VidTube backend (`src/app.py`) and verification of
its specification claims.

The embedding models:
* the data model (`Channel`, `Video`, a `Store` of rows),
* the pure formatters `format_views` and `format_time_ago`,
* the HTTP route handlers `get_videos`, `get_video`, `like_video`,
  `get_categories`, `get_trending`, `search_videos`.

Modelling conventions:
* timestamps are integer seconds (Python `datetime` diffs are taken at whole
  second granularity, matching `timedelta.days` / `timedelta.seconds`);
* SQL `ilike('%x%')` is modelled by a faithful `LIKE` pattern matcher with
  `%` and `_` wildcards and ASCII case folding (SQLite `LIKE` semantics);
* Python `f"{x:.1f}"` / `f"{x:.0f}"` on `views/1000000` and `views/1000` is
  modelled by rounding the exact rational to the nearest tenth / unit, ties
  to even; the theorems state the rounding via a distance bound so that they
  do not depend on the tie direction;
* flask-sqlalchemy `paginate(..., error_out=False)` is modelled by its
  documented behaviour: 1-based pages, `page`/`per_page` below 1 fall back
  to 1/20, out-of-range pages yield an empty item list;
* handlers return `Except` of an error body (with HTTP status) or a result,
  together with the resulting store state.
-/

namespace VidTube

/-- A `Channel` row: id, name, avatar URL, subscriber count, creation time. -/
structure Channel where
  id : Nat
  name : String
  avatar_url : String
  subscribers : Int
  created_at : Int
deriving DecidableEq, Repr

/-- A `Video` row, with the foreign key `channel_id` to its owning channel.
`description` and `category` are nullable columns, hence `Option`. -/
structure Video where
  id : Nat
  title : String
  description : Option String
  thumbnail_url : String
  video_url : String
  duration : String
  views : Int
  likes : Int
  dislikes : Int
  category : Option String
  created_at : Int
  channel_id : Nat
deriving DecidableEq, Repr

/-- The database state: all channel rows and all video rows. -/
structure Store where
  channels : List Channel
  videos : List Video
deriving DecidableEq, Repr

/-- Error body of the two error handlers (`{'error': ...}`). -/
structure ErrorBody where
  error : String
deriving DecidableEq, Repr

/-- The 404 handler response: body and HTTP status. -/
def not_found : ErrorBody × Nat := ({ error := "Resource not found" }, 404)

/-- The 500 handler response: body and HTTP status. -/
def internal_error : ErrorBody × Nat := ({ error := "Internal server error" }, 500)

/-- Successful part of a handler result, if any. -/
def resOk {α : Type} : Except (ErrorBody × Nat) α → Option α
  | Except.ok a => some a
  | Except.error _ => none

/-- Error part of a handler result, if any. -/
def resErr {α : Type} : Except (ErrorBody × Nat) α → Option (ErrorBody × Nat)
  | Except.ok _ => none
  | Except.error e => some e

/-! ### format_views -/

/-- Round `num / den` to the nearest integer, ties to even
(the rounding performed by Python float formatting, stated on the
exact rational). -/
def roundNearest (num den : Nat) : Nat :=
  if 2 * (num % den) < den then num / den
  else if den < 2 * (num % den) then num / den + 1
  else if (num / den) % 2 = 0 then num / den else num / den + 1

/-- `format_views` from `src/app.py`:
`views >= 1000000` renders `views/1000000` with one decimal and suffix `"M"`,
`views >= 1000` renders `views/1000` with no decimals and suffix `"K"`,
otherwise the plain decimal string.  The float divisions and `:.1f` / `:.0f`
formatting of the source are modelled by exact rational rounding to the
nearest tenth / unit (ties to even; at an exact tie the source's binary
double decides the direction, which no theorem below depends on). -/
def format_views (views : Int) : String :=
  if 1000000 ≤ views then
    let tenths := roundNearest (views.toNat * 10) 1000000
    toString (tenths / 10) ++ "." ++ toString (tenths % 10) ++ "M"
  else if 1000 ≤ views then
    toString (roundNearest views.toNat 1000) ++ "K"
  else
    toString views

/-! ### format_time_ago -/

/-- Renders `"<n> <unit>(s) ago"`, appending `"s"` exactly when `1 < n`. -/
def plural (n : Int) (unit : String) : String :=
  toString n ++ " " ++ unit ++ (if 1 < n then "s" else "") ++ " ago"

/-- `format_time_ago` from `src/app.py`.  The source computes
`diff = datetime.utcnow() - created_at` and branches on `diff.days`
(floor of the difference in days, `Int.fdiv` like Python `//`) and
`diff.seconds` (the remaining whole seconds, in `[0, 86400)`, `Int.fmod`).
Time is modelled in integer seconds and the current time `now` is an
explicit argument since the source reads the clock at call time. -/
def format_time_ago (now created_at : Int) : String :=
  if 365 < Int.fdiv (now - created_at) 86400 then
    plural (Int.fdiv (Int.fdiv (now - created_at) 86400) 365) "year"
  else if 30 < Int.fdiv (now - created_at) 86400 then
    plural (Int.fdiv (Int.fdiv (now - created_at) 86400) 30) "month"
  else if 7 < Int.fdiv (now - created_at) 86400 then
    plural (Int.fdiv (Int.fdiv (now - created_at) 86400) 7) "week"
  else if 0 < Int.fdiv (now - created_at) 86400 then
    plural (Int.fdiv (now - created_at) 86400) "day"
  else if 3600 < Int.fmod (now - created_at) 86400 then
    plural (Int.fdiv (Int.fmod (now - created_at) 86400) 3600) "hour"
  else if 60 < Int.fmod (now - created_at) 86400 then
    plural (Int.fdiv (Int.fmod (now - created_at) 86400) 60) "minute"
  else "Just now"

/-! ### SQL LIKE matching (`ilike('%x%')`) -/

/-- `anySuffix p s` holds when `p` accepts some suffix of `s`
(including `s` itself and the empty suffix). -/
def anySuffix (p : List Char → Bool) : List Char → Bool
  | [] => p []
  | c :: s => p (c :: s) || anySuffix p s

/-- SQL `LIKE` pattern matching: `%` matches any character sequence,
`_` any single character, and any other pattern character matches a
single character up to ASCII case (SQLite `LIKE` is ASCII
case-insensitive, which is what SQLAlchemy `ilike` compiles to). -/
def likeMatch : List Char → List Char → Bool
  | [], s => s.isEmpty
  | c :: p, s =>
    if c = '%' then anySuffix (likeMatch p) s
    else if c = '_' then
      match s with
      | [] => false
      | _ :: s1 => likeMatch p s1
    else
      match s with
      | [] => false
      | d :: s1 => (c.toLower == d.toLower) && likeMatch p s1

/-- `ilike(f'%{needle}%')` applied to `hay`. -/
def ilikeContains (needle hay : String) : Bool :=
  likeMatch ('%' :: (needle.data ++ ['%'])) hay.data

/-- Python `str.lower()` (ASCII case folding; the source only compares
against the ASCII literal `'all'`). -/
def pyLower (s : String) : String := ⟨s.data.map Char.toLower⟩

/-! ### Case-insensitive substring containment (the spec's wording) -/

/-- `ciPrefix n h`: `n` is a prefix of `h` up to ASCII case. -/
def ciPrefix : List Char → List Char → Bool
  | [], _ => true
  | _ :: _, [] => false
  | a :: n, b :: h => (a.toLower == b.toLower) && ciPrefix n h

/-- `ciSubstr n h`: `n` occurs in `h` as a contiguous substring,
up to ASCII case. -/
def ciSubstr (n : List Char) : List Char → Bool
  | [] => n.isEmpty
  | c :: h => ciPrefix n (c :: h) || ciSubstr n h

/-- `s` contains no SQL LIKE wildcard character. -/
def noWildcard (s : String) : Prop := '%' ∉ s.data ∧ '_' ∉ s.data

instance (s : String) : Decidable (noWildcard s) :=
  inferInstanceAs (Decidable (_ ∧ _))

/-! ### Python `int()` parsing of query parameters -/

/-- Python `str.strip()`: drop surrounding whitespace (modelled for the
ASCII whitespace characters). -/
def pyStrip (s : String) : String :=
  ⟨((s.data.dropWhile Char.isWhitespace).reverse.dropWhile Char.isWhitespace).reverse⟩

/-- Numeric value of a decimal digit character. -/
def digitVal (c : Char) : Nat := c.toNat - '0'.toNat

/-- Value of a digit list (underscores removed beforehand). -/
def digitsToNat (cs : List Char) : Nat :=
  cs.foldl (fun a c => 10 * a + digitVal c) 0

/-- After a first digit: digits, with single underscores allowed only
between digits (Python `int()` literal syntax). -/
def pyDigitsRest : List Char → Bool
  | [] => true
  | c :: cs =>
    if c = '_' then
      match cs with
      | [] => false
      | d :: ds => d.isDigit && pyDigitsRest ds
    else c.isDigit && pyDigitsRest cs

/-- Parse an unsigned digit run as Python `int()` does. -/
def pyIntDigits (cs : List Char) : Option Int :=
  match cs with
  | [] => none
  | c :: cs1 =>
    if c.isDigit && pyDigitsRest cs1 then
      some ((digitsToNat ((c :: cs1).filter (fun x => x ≠ '_')) : Nat) : Int)
    else none

/-- Python `int(s)` on a string: strips surrounding whitespace, then an
optional sign followed by digits (underscores allowed between digits).
Returns `none` where Python raises `ValueError`.  (Modelled for ASCII
strings; exotic Unicode digits and whitespace are out of scope.) -/
def pythonInt (s : String) : Option Int :=
  match (pyStrip s).data with
  | '+' :: rest => pyIntDigits rest
  | '-' :: rest => (pyIntDigits rest).map (fun n => -n)
  | rest => pyIntDigits rest

/-- `int(request.args.get(name, dflt))`: a missing parameter falls back to
the integer default, a present one goes through Python `int()`. -/
def parseIntParam (p : Option String) (dflt : Int) : Option Int :=
  match p with
  | none => some dflt
  | some s => pythonInt s

/-! ### Sort orders used by the queries -/

/-- `ORDER BY created_at DESC`. -/
def createdDesc (a b : Video) : Prop := b.created_at ≤ a.created_at

instance : DecidableRel createdDesc :=
  fun a b => inferInstanceAs (Decidable (b.created_at ≤ a.created_at))

instance : IsTotal Video createdDesc := ⟨fun a b => le_total b.created_at a.created_at⟩

instance : IsTrans Video createdDesc := ⟨fun _ _ _ h1 h2 => le_trans h2 h1⟩

/-- `ORDER BY views DESC`. -/
def viewsDesc (a b : Video) : Prop := b.views ≤ a.views

instance : DecidableRel viewsDesc :=
  fun a b => inferInstanceAs (Decidable (b.views ≤ a.views))

instance : IsTotal Video viewsDesc := ⟨fun a b => le_total b.views a.views⟩

instance : IsTrans Video viewsDesc := ⟨fun _ _ _ h1 h2 => le_trans h2 h1⟩

/-- Sort video rows by creation timestamp descending. -/
def sortByCreatedDesc (vs : List Video) : List Video :=
  List.insertionSort createdDesc vs

/-- Sort video rows by view count descending. -/
def sortByViewsDesc (vs : List Video) : List Video :=
  List.insertionSort viewsDesc vs

/-! ### The videos listing (`GET /api/videos`) -/

/-- `Video.category.ilike(f'%{c}%')`: a `NULL` category never matches. -/
def catMatches (c : String) (v : Video) : Bool :=
  match v.category with
  | some s => ilikeContains c s
  | none => false

/-- The category filter: applied only when the parameter is present,
non-empty, and its lowercase form is not `'all'`. -/
def applyCategory (category : Option String) (vs : List Video) : List Video :=
  match category with
  | none => vs
  | some c =>
    if c ≠ "" ∧ pyLower c ≠ "all" then vs.filter (catMatches c) else vs

/-- `title.ilike(...) OR description.ilike(...)` for the `search` parameter. -/
def searchFieldMatches (s : String) (v : Video) : Bool :=
  ilikeContains s v.title ||
    (match v.description with
     | some d => ilikeContains s d
     | none => false)

/-- The search filter of the videos listing: applied only when the
parameter is present and non-empty. -/
def applySearch (search : Option String) (vs : List Video) : List Video :=
  match search with
  | none => vs
  | some s => if s ≠ "" then vs.filter (searchFieldMatches s) else vs

/-- Page of serialized videos plus pagination metadata, as returned by
the videos listing. -/
structure VideosPage where
  videos : List Video
  total : Nat
  pages : Nat
  current_page : Int
  has_next : Bool
  has_prev : Bool
deriving DecidableEq, Repr

/-- flask-sqlalchemy `paginate(page=page, per_page=per_page, error_out=False)`
over an already sorted row list: `page`/`per_page` below 1 fall back to 1/20,
the items are the 1-based page slice, `pages` is the ceiling of
`total / per_page` (0 when there are no rows), `has_next` is
`page < pages` and `has_prev` is `page > 1`. -/
def paginateList (l : List Video) (page per_page : Int) : VideosPage :=
  let p := if page < 1 then 1 else page
  let pp := if per_page < 1 then 20 else per_page
  let total := l.length
  let pagesN := (total + pp.toNat - 1) / pp.toNat
  { videos := (l.drop ((p - 1).toNat * pp.toNat)).take pp.toNat
    total := total
    pages := pagesN
    current_page := p
    has_next := decide (p < (pagesN : Int))
    has_prev := decide (1 < p) }

/-- `GET /api/videos` (`get_videos` in `src/app.py`): parses `page` and
`per_page` with Python `int()` (an unparseable value raises and is turned
into the 500 response by the `internal_error` handler), applies the
category and search filters, sorts by creation timestamp descending and
paginates.  The store is never modified. -/
def get_videos (st : Store) (category search pageP perPageP : Option String) :
    Except (ErrorBody × Nat) VideosPage × Store :=
  match parseIntParam pageP 1, parseIntParam perPageP 20 with
  | some page, some per_page =>
    let filtered := applySearch search (applyCategory category st.videos)
    (Except.ok (paginateList (sortByCreatedDesc filtered) page per_page), st)
  | _, _ => (Except.error internal_error, st)

/-! ### Single-video fetch and like action -/

/-- Replace the row the primary-key lookup found (the first row with the
given id) by its updated version. -/
def updFirst (vid : Nat) (f : Video → Video) : List Video → List Video
  | [] => []
  | v :: vs => if v.id = vid then f v :: vs else v :: updFirst vid f vs

/-- `Video.query.get(video_id)`. -/
def findVideo (st : Store) (vid : Nat) : Option Video :=
  st.videos.find? (fun v => v.id == vid)

/-- `GET /api/videos/<id>` (`get_video`): 404 when the id is absent;
otherwise increments the row's view counter by one, commits, and returns
the updated video. -/
def get_video (st : Store) (vid : Nat) :
    Except (ErrorBody × Nat) Video × Store :=
  match findVideo st vid with
  | none => (Except.error not_found, st)
  | some v =>
    (Except.ok { v with views := v.views + 1 },
     { st with videos := updFirst vid (fun w => { w with views := w.views + 1 }) st.videos })

/-- Response body of the like action. -/
structure LikeResponse where
  success : Bool
  likes : Int
  video_id : Nat
deriving DecidableEq, Repr

/-- `POST /api/videos/<id>/like` (`like_video`): 404 when the id is absent;
otherwise increments the row's like counter by one, commits, and returns
the new like count. -/
def like_video (st : Store) (vid : Nat) :
    Except (ErrorBody × Nat) LikeResponse × Store :=
  match findVideo st vid with
  | none => (Except.error not_found, st)
  | some v =>
    (Except.ok { success := true, likes := v.likes + 1, video_id := vid },
     { st with videos := updFirst vid (fun w => { w with likes := w.likes + 1 }) st.videos })

/-! ### Categories, trending, search -/

/-- The truthiness filter `if cat[0]` of the category comprehension:
keeps a category value only when it is non-null and non-empty. -/
def catKeep (o : Option String) : Option String :=
  match o with
  | some s => if s = "" then none else some s
  | none => none

/-- `GET /api/categories` (`get_categories`): the distinct category values,
the falsy ones (`NULL` and the empty string) dropped by `if cat[0]`, sorted,
with `'All'` prepended. -/
def get_categories (st : Store) : List String :=
  "All" :: List.insertionSort (· ≤ ·)
    (((st.videos.map (fun v => v.category)).dedup).filterMap catKeep)

/-- `GET /api/trending` (`get_trending`): videos created within the last
7 days of `now`, ordered by view count descending, limited to 20. -/
def get_trending (st : Store) (now : Int) : List Video :=
  (sortByViewsDesc (st.videos.filter
    (fun v => decide (now - 604800 ≤ v.created_at)))).take 20

/-- `EXISTS` match of the owning channel's name (`Video.channel.has(...)`). -/
def channelNameMatches (st : Store) (q : String) (v : Video) : Bool :=
  match st.channels.find? (fun c => c.id == v.channel_id) with
  | some c => ilikeContains q c.name
  | none => false

/-- The search predicate of `GET /api/search`: title, description, or
owning channel name. -/
def searchMatches (st : Store) (q : String) (v : Video) : Bool :=
  ilikeContains q v.title ||
    (match v.description with
     | some d => ilikeContains q d
     | none => false) ||
    channelNameMatches st q v

/-- `GET /api/search` (`search_videos`): trims the `q` parameter (missing
parameter defaults to the empty string); an empty trimmed query returns the
empty list, otherwise the matching videos sorted by view count descending,
with no limit. -/
def search_videos (st : Store) (qP : Option String) : List Video :=
  if pyStrip (qP.getD "") = "" then []
  else sortByViewsDesc (st.videos.filter (searchMatches st (pyStrip (qP.getD ""))))

/-! ### Concrete rows and stores used by witnesses and counterexamples -/

/-- A sample channel row. -/
def chanA : Channel :=
  { id := 1, name := "CodeMaster", avatar_url := "a.png",
    subscribers := 856000, created_at := 0 }

/-- A second sample channel row. -/
def chanB : Channel :=
  { id := 2, name := "Nature Explorer", avatar_url := "b.png",
    subscribers := 2300000, created_at := 0 }

/-- A sample video whose category is `"Tech"` and title `"Tech Talk"`. -/
def vidTech : Video :=
  { id := 1, title := "Tech Talk", description := none,
    thumbnail_url := "t.png", video_url := "/api/videos/1/stream",
    duration := "12:15", views := 100, likes := 5, dislikes := 0,
    category := some "Tech", created_at := 50, channel_id := 1 }

/-- A one-channel, one-video store. -/
def cexStore : Store := { channels := [chanA], videos := [vidTech] }

/-- Sample video row. -/
def vidA : Video :=
  { id := 1, title := "Amazing Nature", description := some "wildlife in 4K",
    thumbnail_url := "1.png", video_url := "/api/videos/1/stream",
    duration := "15:42", views := 300, likes := 10, dislikes := 0,
    category := some "Nature", created_at := 900, channel_id := 2 }

/-- Sample video row. -/
def vidB : Video :=
  { id := 2, title := "JavaScript Tips", description := none,
    thumbnail_url := "2.png", video_url := "/api/videos/2/stream",
    duration := "12:15", views := 200, likes := 7, dislikes := 1,
    category := some "Technology", created_at := 800, channel_id := 1 }

/-- Sample video row with a `NULL` category and an old timestamp. -/
def vidC : Video :=
  { id := 3, title := "Old Video", description := some "archive",
    thumbnail_url := "3.png", video_url := "/api/videos/3/stream",
    duration := "1:00", views := 100, likes := 1, dislikes := 0,
    category := none, created_at := 100, channel_id := 1 }

/-- A small store with two channels and three videos. -/
def sampleStore : Store := { channels := [chanA, chanB], videos := [vidA, vidB, vidC] }

/-- A video whose category is the empty string (non-null but falsy). -/
def vidEmptyCat : Video :=
  { id := 9, title := "Uncategorized", description := none,
    thumbnail_url := "9.png", video_url := "/api/videos/9/stream",
    duration := "0:30", views := 1, likes := 0, dislikes := 0,
    category := some "", created_at := 10, channel_id := 1 }

/-- A store whose only video has the empty-string category. -/
def cexStoreEmptyCat : Store := { channels := [chanA], videos := [vidEmptyCat] }

/-! ### C1: format_views -/

/-- C1.  For every integer `count`, `format_views` returns: `count < 1000`
(including 0 and every negative count) the plain decimal string; `1000 ≤
count < 1000000` the value `count/1000` rounded to 0 decimals (witnessed by
an integer `k` within half a unit of `count/1000`) suffixed `"K"`;
`count ≥ 1000000` the value `count/1000000` rounded to 1 decimal (witnessed
by a tenths value `t` within half a tenth of `count/1000000`) suffixed
`"M"`; and in particular `format_views 999 = "999"`,
`format_views 1000 = "1K"`, `format_views 2300000 = "2.3M"`. -/
theorem C1_format_views (count : Int) :
    (count < 1000 → format_views count = toString count) ∧
    (1000 ≤ count → count < 1000000 →
      ∃ k : Nat, format_views count = toString k ++ "K" ∧
        -500 ≤ count - 1000 * (k : Int) ∧ count - 1000 * (k : Int) ≤ 500) ∧
    (1000000 ≤ count →
      ∃ t : Nat,
        format_views count = toString (t / 10) ++ "." ++ toString (t % 10) ++ "M" ∧
          -50000 ≤ count - 100000 * (t : Int) ∧ count - 100000 * (t : Int) ≤ 50000) ∧
    format_views 999 = "999" ∧ format_views 1000 = "1K" ∧
    format_views 2300000 = "2.3M" := by
  refine ⟨?_, ?_, ?_, by decide, by decide, by decide⟩
  · intro h
    unfold format_views
    rw [if_neg (by omega), if_neg (by omega)]
  · intro h1 h2
    refine ⟨roundNearest count.toNat 1000, ?_, ?_, ?_⟩
    · unfold format_views
      rw [if_neg (by omega), if_pos h1]
    · unfold roundNearest
      split_ifs <;> omega
    · unfold roundNearest
      split_ifs <;> omega
  · intro h
    refine ⟨roundNearest (count.toNat * 10) 1000000, ?_, ?_, ?_⟩
    · unfold format_views
      rw [if_pos h]
    · unfold roundNearest
      split_ifs <;> omega
    · unfold roundNearest
      split_ifs <;> omega

/-- C1 witness: the K branch at `count = 1500`. -/
theorem C1_format_views_witness :
    ∃ k : Nat, format_views 1500 = toString k ++ "K" ∧
      -500 ≤ (1500 : Int) - 1000 * (k : Int) ∧ (1500 : Int) - 1000 * (k : Int) ≤ 500 :=
  (C1_format_views 1500).2.1 (by decide) (by decide)

/-! ### C2: format_time_ago -/

/-- C2 counterexample.  The claim asserts that a diff of less than a day
but at least one hour is rendered as `"<hours> hour(s) ago"`, and a diff of
at least one minute but under an hour as `"<minutes> minute(s) ago"`.  At a
diff of exactly one hour (`now = 3600`, `created_at = 0`, a non-future
timestamp with `3600 ≤ diff < 86400`) the code renders `"60 minutes ago"`,
not `"1 hour ago"`; at a diff of exactly one minute it renders
`"Just now"`, not `"1 minute ago"`: the source branches on the strict
comparisons `seconds > 3600` and `seconds > 60`. -/
theorem C2_format_time_ago_counterexample :
    ((0 : Int) ≤ 3600 ∧ (3600 : Int) - 0 < 86400 ∧ (3600 : Int) ≤ 3600 - 0) ∧
    format_time_ago 3600 0 = "60 minutes ago" ∧
    format_time_ago 3600 0 ≠ "1 hour ago" ∧
    ((0 : Int) ≤ 60 ∧ (60 : Int) ≤ 60 - 0) ∧
    format_time_ago 60 0 = "Just now" ∧
    format_time_ago 60 0 ≠ "1 minute ago" := by decide

/-- C2 (amended).  For every creation timestamp not in the future, with
`diff = now - created_at` and `days = diff // 86400`: more than 365 days
renders `days // 365` years, more than 30 (and at most 365) days renders
`days // 30` months, more than 7 (and at most 30) days renders `days // 7`
weeks, between 1 and 7 days renders the day count, a diff under a day and
strictly over one hour renders `diff // 3600` hours, a diff strictly over
one minute and at most one hour renders `diff // 60` minutes, and a diff
of at most one minute renders `"Just now"`; `"s"` is appended exactly when
the count exceeds 1 (inside `plural`); and in particular 90 seconds ago
gives `"1 minute ago"`, exactly now gives `"Just now"`, 10 days ago gives
`"1 week ago"`, 400 days ago gives `"1 year ago"`. -/
theorem C2_format_time_ago (now created_at : Int) (hpast : created_at ≤ now) :
    (365 < Int.fdiv (now - created_at) 86400 →
      format_time_ago now created_at =
        plural (Int.fdiv (Int.fdiv (now - created_at) 86400) 365) "year") ∧
    (30 < Int.fdiv (now - created_at) 86400 →
      Int.fdiv (now - created_at) 86400 ≤ 365 →
      format_time_ago now created_at =
        plural (Int.fdiv (Int.fdiv (now - created_at) 86400) 30) "month") ∧
    (7 < Int.fdiv (now - created_at) 86400 →
      Int.fdiv (now - created_at) 86400 ≤ 30 →
      format_time_ago now created_at =
        plural (Int.fdiv (Int.fdiv (now - created_at) 86400) 7) "week") ∧
    (0 < Int.fdiv (now - created_at) 86400 →
      Int.fdiv (now - created_at) 86400 ≤ 7 →
      format_time_ago now created_at =
        plural (Int.fdiv (now - created_at) 86400) "day") ∧
    (3600 < now - created_at → now - created_at < 86400 →
      format_time_ago now created_at =
        plural (Int.fdiv (now - created_at) 3600) "hour") ∧
    (60 < now - created_at → now - created_at ≤ 3600 →
      format_time_ago now created_at =
        plural (Int.fdiv (now - created_at) 60) "minute") ∧
    (now - created_at ≤ 60 → format_time_ago now created_at = "Just now") ∧
    format_time_ago 90 0 = "1 minute ago" ∧
    format_time_ago 0 0 = "Just now" ∧
    format_time_ago 864000 0 = "1 week ago" ∧
    format_time_ago 34560000 0 = "1 year ago" := by
  have hd0 : (0 : Int) ≤ now - created_at := by omega
  have hfd : Int.fdiv (now - created_at) 86400 = (now - created_at) / 86400 :=
    Int.fdiv_eq_ediv _ (by norm_num)
  have hfm : Int.fmod (now - created_at) 86400 = (now - created_at) % 86400 :=
    Int.fmod_eq_emod _ (by norm_num)
  refine ⟨?_, ?_, ?_, ?_, ?_, ?_, ?_, by decide, by decide, by decide, by decide⟩
  · intro h
    unfold format_time_ago
    rw [if_pos h]
  · intro h1 h2
    unfold format_time_ago
    rw [if_neg (by omega), if_pos h1]
  · intro h1 h2
    unfold format_time_ago
    rw [if_neg (by omega), if_neg (by omega), if_pos h1]
  · intro h1 h2
    unfold format_time_ago
    rw [if_neg (by omega), if_neg (by omega), if_neg (by omega), if_pos h1]
  · intro h1 h2
    have hdays : Int.fdiv (now - created_at) 86400 = 0 := by
      rw [hfd]; exact Int.ediv_eq_zero_of_lt hd0 h2
    have hsecs : Int.fmod (now - created_at) 86400 = now - created_at := by
      rw [hfm]; exact Int.emod_eq_of_lt hd0 h2
    unfold format_time_ago
    rw [hdays, hsecs, if_neg (by omega), if_neg (by omega), if_neg (by omega),
      if_neg (by omega), if_pos h1]
  · intro h1 h2
    have hlt : now - created_at < 86400 := by omega
    have hdays : Int.fdiv (now - created_at) 86400 = 0 := by
      rw [hfd]; exact Int.ediv_eq_zero_of_lt hd0 hlt
    have hsecs : Int.fmod (now - created_at) 86400 = now - created_at := by
      rw [hfm]; exact Int.emod_eq_of_lt hd0 hlt
    unfold format_time_ago
    rw [hdays, hsecs, if_neg (by omega), if_neg (by omega), if_neg (by omega),
      if_neg (by omega), if_neg (by omega), if_pos h1]
  · intro h1
    have hlt : now - created_at < 86400 := by omega
    have hdays : Int.fdiv (now - created_at) 86400 = 0 := by
      rw [hfd]; exact Int.ediv_eq_zero_of_lt hd0 hlt
    have hsecs : Int.fmod (now - created_at) 86400 = now - created_at := by
      rw [hfm]; exact Int.emod_eq_of_lt hd0 hlt
    unfold format_time_ago
    rw [hdays, hsecs, if_neg (by omega), if_neg (by omega), if_neg (by omega),
      if_neg (by omega), if_neg (by omega), if_neg (by omega)]

/-- C2 witness: the minute bucket at a diff of 90 seconds. -/
theorem C2_format_time_ago_witness :
    format_time_ago 90 0 = plural (Int.fdiv (90 - 0) 60) "minute" :=
  (C2_format_time_ago 90 0 (by decide)).2.2.2.2.2.1 (by decide) (by decide)

/-! ### Row-update lemmas for the increment handlers -/

/-- A successful primary-key lookup splits the row list into a prefix of
rows with other ids, the found row, and a suffix; `updFirst` updates
exactly the found row. -/
theorem find_updFirst_decomp (vid : Nat) (f : Video → Video) :
    ∀ (l : List Video) (v : Video), l.find? (fun w => w.id == vid) = some v →
      ∃ pre post, l = pre ++ v :: post ∧ (∀ u ∈ pre, u.id ≠ vid) ∧
        updFirst vid f l = pre ++ f v :: post := by
  intro l
  induction l with
  | nil => intro v hv; simp [List.find?] at hv
  | cons w l ih =>
    intro v hv
    by_cases hw : w.id = vid
    · have : w = v := by
        simpa [List.find?_cons, hw] using hv
      subst this
      exact ⟨[], l, by simp, by simp, by simp [updFirst, hw]⟩
    · have hv' : l.find? (fun w => w.id == vid) = some v := by
        simpa [List.find?_cons, hw] using hv
      obtain ⟨pre, post, h1, h2, h3⟩ := ih v hv'
      refine ⟨w :: pre, post, by simp [h1], ?_, by simp [updFirst, hw, h3]⟩
      intro u hu
      rcases List.mem_cons.mp hu with h | h
      · subst h; exact hw
      · exact h2 u h

/-- A primary-key lookup over a list whose prefix has other ids finds the
row after the prefix. -/
theorem find?_skip_pre (vid : Nat) (w : Video) (hw : w.id = vid) (post : List Video) :
    ∀ pre : List Video, (∀ u ∈ pre, u.id ≠ vid) →
      (pre ++ w :: post).find? (fun x => x.id == vid) = some w := by
  intro pre
  induction pre with
  | nil => intro _; simp [List.find?_cons, hw]
  | cons u pre ih =>
    intro hpre
    have hu : (u.id == vid) = false := by
      simpa using hpre u (by simp)
    have hih := ih fun x hx => hpre x (by simp [hx])
    show List.find? (fun x => x.id == vid) (u :: (pre ++ w :: post)) = some w
    simp [List.find?_cons, hu, hih]

/-- `updFirst` over a list whose prefix has other ids updates the row
after the prefix. -/
theorem updFirst_skip_pre (vid : Nat) (f : Video → Video) (w : Video)
    (hw : w.id = vid) (post : List Video) :
    ∀ pre : List Video, (∀ u ∈ pre, u.id ≠ vid) →
      updFirst vid f (pre ++ w :: post) = pre ++ f w :: post := by
  intro pre
  induction pre with
  | nil => intro _; simp [updFirst, hw]
  | cons u pre ih =>
    intro hpre
    have hu : u.id ≠ vid := hpre u (by simp)
    have hih := ih fun x hx => hpre x (by simp [hx])
    show updFirst vid f (u :: (pre ++ w :: post)) = u :: (pre ++ f w :: post)
    rw [updFirst, if_neg hu, hih]

/-! ### C5: GET /api/videos/<id> increments views -/

/-- C5.  For every store and video id present in the store, the single
video fetch increments that video's view counter by exactly 1 (and changes
nothing else: the rows before and after the fetched row are untouched) and
returns the updated video; calling it twice on the same id increases the
stored views by exactly 2 from the original value and returns the
twice-updated video; for an absent id the response is the not-found error
shape and the store is unchanged. -/
theorem C5_get_video (st : Store) (vid : Nat) :
    (findVideo st vid = none → get_video st vid = (Except.error not_found, st)) ∧
    (∀ v, findVideo st vid = some v →
      (get_video st vid).1 = Except.ok { v with views := v.views + 1 } ∧
      ∃ pre post,
        st.videos = pre ++ v :: post ∧ (∀ u ∈ pre, u.id ≠ vid) ∧
        (get_video st vid).2 =
          { st with videos := pre ++ { v with views := v.views + 1 } :: post } ∧
        (get_video ((get_video st vid).2) vid).2 =
          { st with videos := pre ++ { v with views := v.views + 2 } :: post } ∧
        (get_video ((get_video st vid).2) vid).1 =
          Except.ok { v with views := v.views + 2 }) := by
  constructor
  · intro h
    simp [get_video, h]
  · intro v hv
    have hvid : v.id = vid := by
      have := List.find?_some hv
      simpa using this
    obtain ⟨pre, post, hl, hpre, hupd⟩ :=
      find_updFirst_decomp vid (fun w => { w with views := w.views + 1 }) st.videos v hv
    have hfirst : (get_video st vid).1 = Except.ok { v with views := v.views + 1 } := by
      simp [get_video, hv]
    have hstate : (get_video st vid).2 =
        { st with videos := pre ++ { v with views := v.views + 1 } :: post } := by
      simp [get_video, hv, hupd]
    have hid1 : ({ v with views := v.views + 1 } : Video).id = vid := hvid
    have hfind1 : findVideo ((get_video st vid).2) vid = some { v with views := v.views + 1 } := by
      rw [hstate]
      exact find?_skip_pre vid _ hid1 post pre hpre
    have hupd1 : updFirst vid (fun w => { w with views := w.views + 1 })
        ((get_video st vid).2).videos =
        pre ++ { v with views := v.views + 1 + 1 } :: post := by
      rw [hstate]
      exact updFirst_skip_pre vid _ _ hid1 post pre hpre
    have hchan : ((get_video st vid).2).channels = st.channels := by
      rw [hstate]
    have h2eq : v.views + 1 + 1 = v.views + 2 := by omega
    refine ⟨hfirst, pre, post, hl, hpre, hstate, ?_, ?_⟩
    · have key : ∀ st1 : Store,
          findVideo st1 vid = some { v with views := v.views + 1 } →
          updFirst vid (fun w => { w with views := w.views + 1 }) st1.videos =
            pre ++ { v with views := v.views + 1 + 1 } :: post →
          st1.channels = st.channels →
          (get_video st1 vid).2 =
            { st with videos := pre ++ { v with views := v.views + 2 } :: post } := by
        intro st1 h1 h2 h3
        simp only [get_video, h1, h2, h3, h2eq]
      exact key _ hfind1 hupd1 hchan
    · have key : ∀ st1 : Store,
          findVideo st1 vid = some { v with views := v.views + 1 } →
          (get_video st1 vid).1 = Except.ok { v with views := v.views + 2 } := by
        intro st1 h1
        simp only [get_video, h1]
        simp [h2eq]
      exact key _ hfind1

/-- C5 witness: the fetch of video 1 in the sample store, applied twice. -/
theorem C5_get_video_witness :
    (get_video sampleStore 1).1 = Except.ok { vidA with views := vidA.views + 1 } ∧
    ∃ pre post,
      sampleStore.videos = pre ++ vidA :: post ∧ (∀ u ∈ pre, u.id ≠ 1) ∧
      (get_video sampleStore 1).2 =
        { sampleStore with videos := pre ++ { vidA with views := vidA.views + 1 } :: post } ∧
      (get_video ((get_video sampleStore 1).2) 1).2 =
        { sampleStore with videos := pre ++ { vidA with views := vidA.views + 2 } :: post } ∧
      (get_video ((get_video sampleStore 1).2) 1).1 =
        Except.ok { vidA with views := vidA.views + 2 } :=
  (C5_get_video sampleStore 1).2 vidA rfl

/-! ### C6: POST /api/videos/<id>/like increments likes -/

/-- C6.  For every store, the like action on an id present in the store
unconditionally increments that video's like counter by exactly 1 (the
rows before and after the liked row are untouched) and returns the updated
like count (with `success` and the echoed video id); on an id absent from
the store it returns the not-found error shape
`{"error": "Resource not found"}` with status 404 and leaves the store
unchanged. -/
theorem C6_like_video (st : Store) (vid : Nat) :
    (findVideo st vid = none →
      like_video st vid = (Except.error ({ error := "Resource not found" }, 404), st)) ∧
    (∀ v, findVideo st vid = some v →
      (like_video st vid).1 =
        Except.ok { success := true, likes := v.likes + 1, video_id := vid } ∧
      ∃ pre post,
        st.videos = pre ++ v :: post ∧ (∀ u ∈ pre, u.id ≠ vid) ∧
        (like_video st vid).2 =
          { st with videos := pre ++ { v with likes := v.likes + 1 } :: post }) := by
  constructor
  · intro h
    simp [like_video, h, not_found]
  · intro v hv
    obtain ⟨pre, post, hl, hpre, hupd⟩ :=
      find_updFirst_decomp vid (fun w => { w with likes := w.likes + 1 }) st.videos v hv
    refine ⟨by simp [like_video, hv], pre, post, hl, hpre, ?_⟩
    simp [like_video, hv, hupd]

/-- C6 witness: liking video 2 in the sample store, and liking an absent
id 99. -/
theorem C6_like_video_witness :
    ((like_video sampleStore 2).1 =
      Except.ok { success := true, likes := vidB.likes + 1, video_id := 2 } ∧
    ∃ pre post,
      sampleStore.videos = pre ++ vidB :: post ∧ (∀ u ∈ pre, u.id ≠ 2) ∧
      (like_video sampleStore 2).2 =
        { sampleStore with videos := pre ++ { vidB with likes := vidB.likes + 1 } :: post }) ∧
    like_video sampleStore 99 =
      (Except.error ({ error := "Resource not found" }, 404), sampleStore) :=
  ⟨(C6_like_video sampleStore 2).2 vidB rfl, (C6_like_video sampleStore 99).1 rfl⟩

/-! ### LIKE patterns without wildcards are substring tests -/

/-- `ciPrefix` against the empty haystack. -/
theorem ciPrefix_nil (n : List Char) : ciPrefix n [] = n.isEmpty := by
  cases n <;> simp [ciPrefix, List.isEmpty]

/-- Scanning the empty-string test over every suffix always succeeds
(the empty suffix passes). -/
theorem anySuffix_isEmpty : ∀ s : List Char, anySuffix (fun t => List.isEmpty t) s = true := by
  intro s
  induction s with
  | nil => simp [anySuffix]
  | cons c s ih => simp [anySuffix, ih]

/-- The pattern `%` alone accepts everything. -/
theorem anySuffix_likeMatch_nil : ∀ s : List Char, anySuffix (likeMatch []) s = true := by
  intro s
  have h : likeMatch [] = fun t : List Char => List.isEmpty t := by
    funext t
    simp [likeMatch]
  rw [h]
  exact anySuffix_isEmpty s

/-- A wildcard-free pattern followed by `%` accepts exactly the strings it
is a case-insensitive prefix of. -/
theorem likeMatch_plain_pct (p : List Char) (hpct : '%' ∉ p) (hus : '_' ∉ p) :
    ∀ s, likeMatch (p ++ ['%']) s = ciPrefix p s := by
  induction p with
  | nil =>
    intro s
    show likeMatch ('%' :: []) s = ciPrefix [] s
    simp [likeMatch, ciPrefix, anySuffix_isEmpty s]
  | cons c p ih =>
    intro s
    have hc1 : c ≠ '%' := by
      intro h
      exact hpct (by simp [h])
    have hc2 : c ≠ '_' := by
      intro h
      exact hus (by simp [h])
    have hpct' : '%' ∉ p := fun h => hpct (List.mem_cons_of_mem _ h)
    have hus' : '_' ∉ p := fun h => hus (List.mem_cons_of_mem _ h)
    cases s with
    | nil =>
      show likeMatch (c :: (p ++ ['%'])) [] = ciPrefix (c :: p) []
      simp [likeMatch, ciPrefix, hc1, hc2]
    | cons d s1 =>
      show likeMatch (c :: (p ++ ['%'])) (d :: s1) = ciPrefix (c :: p) (d :: s1)
      simp [likeMatch, ciPrefix, hc1, hc2, ih hpct' hus' s1]

/-- Scanning a wildcard-free pattern (followed by `%`) over every suffix is
the case-insensitive substring test. -/
theorem anySuffix_eq_ciSubstr (p : List Char) (hpct : '%' ∉ p) (hus : '_' ∉ p) :
    ∀ s, anySuffix (likeMatch (p ++ ['%'])) s = ciSubstr p s := by
  intro s
  induction s with
  | nil => simp [anySuffix, likeMatch_plain_pct p hpct hus, ciPrefix_nil, ciSubstr]
  | cons c s1 ih => simp [anySuffix, likeMatch_plain_pct p hpct hus, ciSubstr, ih]

/-- For a wildcard-free needle, the SQL pattern `%needle%` matches exactly
the strings containing `needle` as a case-insensitive substring. -/
theorem ilikeContains_eq_ciSubstr (q hay : String) (hq : noWildcard q) :
    ilikeContains q hay = ciSubstr q.data hay.data := by
  show likeMatch ('%' :: (q.data ++ ['%'])) hay.data = ciSubstr q.data hay.data
  simp [likeMatch, anySuffix_eq_ciSubstr q.data hq.1 hq.2 hay.data]

/-! ### C4: the category filter -/

/-- C4 counterexample.  The claim asserts that for every non-empty category
parameter whose lowercase form is not `"all"`, the listing returns exactly
the videos whose category case-insensitively contains the parameter as a
substring.  The parameter `"T_ch"` (non-empty, lowercase `"t_ch"`) is
passed into SQL `ilike('%T_ch%')`, where `_` is a single-character
wildcard: the store whose only video has category `"Tech"` returns that
video, although `"T_ch"` is not a substring of `"Tech"` in any case. -/
theorem C4_category_counterexample :
    ("T_ch" ≠ "" ∧ pyLower "T_ch" ≠ "all") ∧
    resOk (get_videos cexStore (some "T_ch") none none none).1 =
      some { videos := [vidTech], total := 1, pages := 1, current_page := 1,
             has_next := false, has_prev := false } ∧
    vidTech.category = some "Tech" ∧
    ciSubstr "T_ch".data "Tech".data = false := by decide

/-- C4 (amended).  For every store state and every non-empty category
parameter containing no SQL LIKE wildcard (`%` or `_`) whose lowercase
form is not `"all"`, the videos listing applies exactly the
case-insensitive-substring category filter (videos with a `NULL` category
never match) before sorting and paginating; for the parameter `"all"` in
any letter case, and for a missing or blank parameter, no category filter
is applied and the full video set flows into the listing. -/
theorem C4_category_filter (st : Store) (c : String) :
    (c ≠ "" → pyLower c ≠ "all" → noWildcard c →
      get_videos st (some c) none none none =
        (Except.ok (paginateList (sortByCreatedDesc (st.videos.filter (fun v =>
          match v.category with
          | some s => ciSubstr c.data s.data
          | none => false))) 1 20), st)) ∧
    (pyLower c = "all" →
      get_videos st (some c) none none none =
        (Except.ok (paginateList (sortByCreatedDesc st.videos) 1 20), st)) ∧
    (c = "" →
      get_videos st (some c) none none none =
        (Except.ok (paginateList (sortByCreatedDesc st.videos) 1 20), st)) ∧
    get_videos st none none none none =
      (Except.ok (paginateList (sortByCreatedDesc st.videos) 1 20), st) := by
  refine ⟨?_, ?_, ?_, ?_⟩
  · intro hne hall hw
    have hfilter : st.videos.filter (catMatches c) =
        st.videos.filter (fun v =>
          match v.category with
          | some s => ciSubstr c.data s.data
          | none => false) := by
      apply List.filter_congr
      intro v _
      unfold catMatches
      cases v.category with
      | none => rfl
      | some s => exact ilikeContains_eq_ciSubstr c s hw
    simp [get_videos, parseIntParam, applyCategory, applySearch,
      if_pos (And.intro hne hall), hfilter]
  · intro hall
    by_cases hne : c = ""
    · simp [get_videos, parseIntParam, applyCategory, applySearch, hne]
    · simp [get_videos, parseIntParam, applyCategory, applySearch,
        if_neg (by simp [hall] : ¬(c ≠ "" ∧ pyLower c ≠ "all"))]
  · intro hne
    simp [get_videos, parseIntParam, applyCategory, applySearch, hne]
  · simp [get_videos, parseIntParam, applyCategory, applySearch]

/-- C4 witness: the filter applied for parameter `"Tech"` on the sample
store, and the disabled filter for `"ALL"`. -/
theorem C4_category_filter_witness :
    get_videos sampleStore (some "Tech") none none none =
      (Except.ok (paginateList (sortByCreatedDesc (sampleStore.videos.filter (fun v =>
        match v.category with
        | some s => ciSubstr "Tech".data s.data
        | none => false))) 1 20), sampleStore) ∧
    get_videos sampleStore (some "ALL") none none none =
      (Except.ok (paginateList (sortByCreatedDesc sampleStore.videos) 1 20), sampleStore) :=
  ⟨(C4_category_filter sampleStore "Tech").1 (by decide) (by decide) (by decide),
   (C4_category_filter sampleStore "ALL").2.1 (by decide)⟩

/-! ### C3: videos listing pagination -/

/-- C3.  For every store state and parseable pagination parameters
(`page` defaulting to 1 when missing, `per_page` to 20, as the first two
conjuncts state), the videos listing returns the filtered videos sorted by
creation timestamp descending (a sorted permutation of the filtered set)
and paginated 1-based, together with the total item count (the filtered
set's size), the total page count (ceiling of total over page size),
the current page, the has-next flag (`page < pages`) and the has-previous
flag (`1 < page`); for every page number past the last page the item list
is empty rather than an error. -/
theorem C3_get_videos (st : Store) (category search pageP perPageP : Option String)
    (page per_page : Int)
    (hpage : parseIntParam pageP 1 = some page)
    (hpp : parseIntParam perPageP 20 = some per_page)
    (h1 : 1 ≤ page) (h2 : 1 ≤ per_page) :
    parseIntParam none 1 = some 1 ∧ parseIntParam none 20 = some 20 ∧
    ∃ sortedAll : List Video,
      sortedAll.Perm (applySearch search (applyCategory category st.videos)) ∧
      List.Sorted createdDesc sortedAll ∧
      get_videos st category search pageP perPageP =
        (Except.ok
          { videos := (sortedAll.drop ((page - 1).toNat * per_page.toNat)).take per_page.toNat
            total := (applySearch search (applyCategory category st.videos)).length
            pages := ((applySearch search (applyCategory category st.videos)).length +
                per_page.toNat - 1) / per_page.toNat
            current_page := page
            has_next := decide (page <
              ((((applySearch search (applyCategory category st.videos)).length +
                  per_page.toNat - 1) / per_page.toNat : Nat) : Int))
            has_prev := decide (1 < page) }, st) ∧
      ((applySearch search (applyCategory category st.videos)).length ≤
          (page - 1).toNat * per_page.toNat →
        (sortedAll.drop ((page - 1).toNat * per_page.toNat)).take per_page.toNat = []) := by
  have hlen : (sortByCreatedDesc (applySearch search (applyCategory category st.videos))).length
      = (applySearch search (applyCategory category st.videos)).length :=
    (List.perm_insertionSort _ _).length_eq
  have hp1 : ¬ page < 1 := by omega
  have hp2 : ¬ per_page < 1 := by omega
  refine ⟨rfl, rfl, sortByCreatedDesc (applySearch search (applyCategory category st.videos)),
    List.perm_insertionSort _ _, List.sorted_insertionSort _ _, ?_, ?_⟩
  · simp [get_videos, hpage, hpp, paginateList, hp1, hp2, hlen]
  · intro hle
    rw [List.drop_eq_nil_of_le (by rw [hlen]; exact hle)]
    simp

/-- C3 witness: the listing of the sample store with no parameters
(defaults page 1, page size 20). -/
theorem C3_get_videos_witness :
    parseIntParam none 1 = some 1 ∧ parseIntParam none 20 = some 20 ∧
    ∃ sortedAll : List Video,
      sortedAll.Perm (applySearch none (applyCategory none sampleStore.videos)) ∧
      List.Sorted createdDesc sortedAll ∧
      get_videos sampleStore none none none none =
        (Except.ok
          { videos := (sortedAll.drop (((1 : Int) - 1).toNat * (20 : Int).toNat)).take
              (20 : Int).toNat
            total := (applySearch none (applyCategory none sampleStore.videos)).length
            pages := ((applySearch none (applyCategory none sampleStore.videos)).length +
                (20 : Int).toNat - 1) / (20 : Int).toNat
            current_page := 1
            has_next := decide ((1 : Int) <
              ((((applySearch none (applyCategory none sampleStore.videos)).length +
                  (20 : Int).toNat - 1) / (20 : Int).toNat : Nat) : Int))
            has_prev := decide ((1 : Int) < 1) }, sampleStore) ∧
      ((applySearch none (applyCategory none sampleStore.videos)).length ≤
          ((1 : Int) - 1).toNat * (20 : Int).toNat →
        (sortedAll.drop (((1 : Int) - 1).toNat * (20 : Int).toNat)).take (20 : Int).toNat = []) :=
  C3_get_videos sampleStore none none none none 1 20 rfl rfl (by decide) (by decide)

/-! ### C7: trending -/

/-- C7.  For every store whose creation timestamps are not in the future,
the trending endpoint returns at most 20 videos, every returned video has a
creation timestamp within the last 7 days (604800 seconds) of the current
time, the list is sorted by view count descending, and when at most 20
videos qualify the list contains exactly the qualifying videos (possibly
none). -/
theorem C7_get_trending (st : Store) (now : Int)
    (hpast : ∀ v ∈ st.videos, v.created_at ≤ now) :
    (get_trending st now).length ≤ 20 ∧
    (∀ v ∈ get_trending st now, now - 604800 ≤ v.created_at ∧ v.created_at ≤ now) ∧
    List.Sorted viewsDesc (get_trending st now) ∧
    ((st.videos.filter (fun v => decide (now - 604800 ≤ v.created_at))).length ≤ 20 →
      (get_trending st now).Perm
        (st.videos.filter (fun v => decide (now - 604800 ≤ v.created_at)))) := by
  have hperm : (sortByViewsDesc
        (st.videos.filter (fun v => decide (now - 604800 ≤ v.created_at)))).Perm
      (st.videos.filter (fun v => decide (now - 604800 ≤ v.created_at))) :=
    List.perm_insertionSort viewsDesc _
  refine ⟨?_, ?_, ?_, ?_⟩
  · show ((sortByViewsDesc _).take 20).length ≤ 20
    rw [List.length_take]
    exact min_le_left _ _
  · intro v hv
    have hv1 : v ∈ sortByViewsDesc
        (st.videos.filter (fun v => decide (now - 604800 ≤ v.created_at))) :=
      List.mem_of_mem_take hv
    have hv2 := hperm.mem_iff.mp hv1
    have hv3 := List.mem_filter.mp hv2
    exact ⟨by simpa using hv3.2, hpast v hv3.1⟩
  · exact List.Pairwise.sublist (List.take_sublist _ _) (List.sorted_insertionSort viewsDesc _)
  · intro hle
    show ((sortByViewsDesc _).take 20).Perm _
    rw [List.take_of_length_le (by rw [hperm.length_eq]; exact hle)]
    exact hperm

/-- C7 witness: a current time for which two of the three sample videos
are within the last week. -/
theorem C7_get_trending_witness :
    (get_trending sampleStore 605000).length ≤ 20 ∧
    (∀ v ∈ get_trending sampleStore 605000,
      (605000 : Int) - 604800 ≤ v.created_at ∧ v.created_at ≤ 605000) ∧
    List.Sorted viewsDesc (get_trending sampleStore 605000) ∧
    ((sampleStore.videos.filter
        (fun v => decide ((605000 : Int) - 604800 ≤ v.created_at))).length ≤ 20 →
      (get_trending sampleStore 605000).Perm
        (sampleStore.videos.filter
          (fun v => decide ((605000 : Int) - 604800 ≤ v.created_at)))) :=
  C7_get_trending sampleStore 605000 (by decide)

/-! ### C8: global search -/

/-- C8 counterexample.  The claim asserts that for every non-empty trimmed
query the search returns exactly the videos whose title, description, or
owning channel's name case-insensitively contains the query as a
substring.  The query `"T_ch"` goes into SQL `ilike('%T_ch%')`, where `_`
is a single-character wildcard: the store whose only video is titled
`"Tech Talk"` (no description, channel named `"CodeMaster"`) returns that
video although none of the three fields contains `"T_ch"` as a substring
in any case. -/
theorem C8_search_counterexample :
    pyStrip (Option.getD (some "T_ch") "") ≠ "" ∧
    search_videos cexStore (some "T_ch") = [vidTech] ∧
    ciSubstr "T_ch".data vidTech.title.data = false ∧
    vidTech.description = none ∧
    cexStore.channels.find? (fun c => c.id == vidTech.channel_id) = some chanA ∧
    ciSubstr "T_ch".data chanA.name.data = false := by decide

/-- C8 (amended).  For every store state, the search endpoint strips the
query string and, when the stripped query is empty (missing, empty, or
whitespace-only), returns an empty video list without error; for every
non-empty stripped query containing no SQL LIKE wildcard (`%` or `_`) it
returns exactly the videos whose title, description, or owning channel's
name case-insensitively contains the query as a substring (a permutation
of that filtered set), sorted by view count descending with no limit. -/
theorem C8_search (st : Store) (qP : Option String) :
    (pyStrip (qP.getD "") = "" → search_videos st qP = []) ∧
    (∀ q : String, pyStrip (qP.getD "") = q → q ≠ "" → noWildcard q →
      (search_videos st qP).Perm
        (st.videos.filter (fun v =>
          ciSubstr q.data v.title.data ||
            (match v.description with
             | some d => ciSubstr q.data d.data
             | none => false) ||
            (match st.channels.find? (fun c => c.id == v.channel_id) with
             | some c => ciSubstr q.data c.name.data
             | none => false))) ∧
      List.Sorted viewsDesc (search_videos st qP)) := by
  constructor
  · intro h
    simp [search_videos, h]
  · intro q hq hne hw
    have hsub : ∀ hay : String, ilikeContains q hay = ciSubstr q.data hay.data :=
      fun hay => ilikeContains_eq_ciSubstr q hay hw
    have hfilter : st.videos.filter (searchMatches st q) =
        st.videos.filter (fun v =>
          ciSubstr q.data v.title.data ||
            (match v.description with
             | some d => ciSubstr q.data d.data
             | none => false) ||
            (match st.channels.find? (fun c => c.id == v.channel_id) with
             | some c => ciSubstr q.data c.name.data
             | none => false)) := by
      apply List.filter_congr
      intro v _
      unfold searchMatches channelNameMatches
      cases v.description <;>
        cases st.channels.find? (fun c => c.id == v.channel_id) <;>
          simp [hsub]
    constructor
    · show (search_videos st qP).Perm _
      simp only [search_videos, hq, if_neg hne]
      rw [hfilter]
      exact List.perm_insertionSort _ _
    · simp only [search_videos, hq, if_neg hne]
      exact List.sorted_insertionSort viewsDesc _

/-- C8 witness: searching the sample store for `"tech"` (which matches one
title case-insensitively). -/
theorem C8_search_witness :
    (search_videos sampleStore (some "tech")).Perm
      (sampleStore.videos.filter (fun v =>
        ciSubstr "tech".data v.title.data ||
          (match v.description with
           | some d => ciSubstr "tech".data d.data
           | none => false) ||
          (match sampleStore.channels.find? (fun c => c.id == v.channel_id) with
           | some c => ciSubstr "tech".data c.name.data
           | none => false))) ∧
    List.Sorted viewsDesc (search_videos sampleStore (some "tech")) :=
  (C8_search sampleStore (some "tech")).2 "tech" (by decide) (by decide) (by decide)

/-! ### C9: category listing -/

/-- C9 counterexample.  The claim asserts the listing contains every
non-null category value.  The store whose only video has the non-null
category `""` yields `["All"]`: the source's `if cat[0]` drops the falsy
empty string, not only `NULL`. -/
theorem C9_categories_counterexample :
    (∃ v ∈ cexStoreEmptyCat.videos, v.category = some "") ∧
    get_categories cexStoreEmptyCat = ["All"] ∧
    "" ∉ get_categories cexStoreEmptyCat := by decide

/-- C9 (amended).  For every store state, the category listing is the
synthetic entry `"All"` followed by the lexicographically sorted,
duplicate-free set of the non-null, non-empty category values across all
videos. -/
theorem C9_get_categories (st : Store) :
    ∃ rest : List String,
      get_categories st = "All" :: rest ∧
      List.Sorted (· ≤ ·) rest ∧
      rest.Nodup ∧
      ∀ s : String,
        s ∈ rest ↔ (some s ∈ st.videos.map (fun v => v.category) ∧ s ≠ "") := by
  refine ⟨List.insertionSort (· ≤ ·)
      (((st.videos.map (fun v : Video => v.category)).dedup).filterMap catKeep),
    rfl, List.sorted_insertionSort _ _, ?_, ?_⟩
  · apply (List.perm_insertionSort _ _).nodup_iff.mpr
    apply List.Nodup.filterMap
    · intro a a' b hb hb'
      cases a with
      | none => simp [catKeep] at hb
      | some s =>
        cases a' with
        | none => simp [catKeep] at hb'
        | some t =>
          by_cases hs : s = ""
          · simp [catKeep, hs] at hb
          · by_cases ht : t = ""
            · simp [catKeep, ht] at hb'
            · simp [catKeep, hs] at hb
              simp [catKeep, ht] at hb'
              rw [hb, hb']
    · exact List.nodup_dedup _
  · intro s
    constructor
    · intro hs
      have hs1 := (List.perm_insertionSort _ _).mem_iff.mp hs
      obtain ⟨o, ho, hfo⟩ := List.mem_filterMap.mp hs1
      cases o with
      | none => simp [catKeep] at hfo
      | some t =>
        by_cases ht : t = ""
        · simp [catKeep, ht] at hfo
        · simp [catKeep, ht] at hfo
          subst hfo
          exact ⟨List.mem_dedup.mp ho, ht⟩
    · rintro ⟨hmem, hne⟩
      apply (List.perm_insertionSort _ _).mem_iff.mpr
      apply List.mem_filterMap.mpr
      exact ⟨some s, List.mem_dedup.mpr hmem, by simp [catKeep, hne]⟩

/-- C9 witness (the amended theorem has no hypothesis, but the sample
store exercises it): instantiation at the sample store. -/
theorem C9_get_categories_witness :
    ∃ rest : List String,
      get_categories sampleStore = "All" :: rest ∧
      List.Sorted (· ≤ ·) rest ∧
      rest.Nodup ∧
      ∀ s : String,
        s ∈ rest ↔ (some s ∈ sampleStore.videos.map (fun v => v.category) ∧ s ≠ "") :=
  C9_get_categories sampleStore

/-! ### C10: unparseable pagination parameters -/

/-- C10.  For every request to the videos listing whose `page` or
`per_page` parameter is present but not parseable by Python `int()`, the
conversion raises before any query executes and the response is the
internal-fault shape `{"error": "Internal server error"}` with the
server-error status 500 (not a client-error rejection), and the store is
left unchanged. -/
theorem C10_unparseable_pagination (st : Store)
    (category search pageP perPageP : Option String)
    (hbad : parseIntParam pageP 1 = none ∨ parseIntParam perPageP 20 = none) :
    get_videos st category search pageP perPageP = (Except.error internal_error, st) ∧
    resErr (get_videos st category search pageP perPageP).1 =
      some ({ error := "Internal server error" }, 500) ∧
    (get_videos st category search pageP perPageP).2 = st := by
  have hmain : get_videos st category search pageP perPageP =
      (Except.error internal_error, st) := by
    rcases hbad with h | h
    · simp [get_videos, h]
    · cases hp : parseIntParam pageP 1 with
      | none => simp [get_videos, hp]
      | some page => simp [get_videos, hp, h]
  refine ⟨hmain, ?_, ?_⟩
  · rw [hmain]
    rfl
  · rw [hmain]

/-- C10 witness: `page = "abc"` is rejected by `int()` and produces the
500 shape with the store untouched. -/
theorem C10_unparseable_pagination_witness :
    get_videos sampleStore none none (some "abc") none =
      (Except.error internal_error, sampleStore) ∧
    resErr (get_videos sampleStore none none (some "abc") none).1 =
      some ({ error := "Internal server error" }, 500) ∧
    (get_videos sampleStore none none (some "abc") none).2 = sampleStore :=
  C10_unparseable_pagination sampleStore none none (some "abc") none (Or.inl (by decide))

end VidTube
